import Mathlib

/-!
Shallow embedding of `datasets/voc.py` (PASCAL VOC segmentation dataset
adapter).  The file models, faithfully to the Python source:

* the POSIX path helpers the code relies on (`os.path.join`,
  `os.path.normpath`, `os.path.abspath`, `os.path.commonprefix`,
  `os.path.expanduser`), restricted to POSIX separators and to the `~`/`~/`
  forms of `expanduser` (the `~user` form never arises here);
* `is_within_directory` / `safe_extract` from `download_extract`;
* the colormap generator `voc_cmap` (NumPy floats are modelled as exact
  rationals; `np.zeros` with a negative dimension raises `ValueError`);
* `VOCSegmentation.__init__` over an abstract read-only filesystem, and
  `VOCSegmentation.__getitem__`'s Python list indexing.

Filesystem reads are abstracted as a record of pure functions; stateful
side effects (the download-and-extract call, the files written by
`tar.extractall`) are reified as explicit effect lists / write traces.
-/

namespace VOC

/-- Character-list test: is the first list an initial segment of the second? -/
def isPre : List Char → List Char → Bool
  | [], _ => true
  | _ :: _, [] => false
  | x :: xs, y :: ys => x == y && isPre xs ys

/-- Model of Python `s.startswith(pre)` (POSIX paths). -/
def startsWith (s pre : String) : Bool := isPre pre.data s.data

/-- Model of Python `s.endswith(suf)`. -/
def endsWith (s suf : String) : Bool := isPre suf.data.reverse s.data.reverse

/-- Two-argument POSIX `os.path.join`: if the second path is absolute it
replaces the first; otherwise it is appended, inserting `/` unless the
first part is empty or already ends in `/`. -/
def pyJoin (a b : String) : String :=
  if startsWith b "/" then b
  else if a = "" ∨ endsWith a "/" then a ++ b
  else a ++ "/" ++ b

/-- Helper for `splitSlash`: accumulates the current component (reversed). -/
def splitSlashAux (cur : List Char) : List Char → List String
  | [] => [String.mk cur.reverse]
  | c :: rest =>
    if c = '/' then String.mk cur.reverse :: splitSlashAux [] rest
    else splitSlashAux (c :: cur) rest

/-- Model of Python string splitting on the slash character: e.g.
`"/a" ↦ ["", "a"]` and `"" ↦ [""]`. -/
def splitSlash (s : String) : List String := splitSlashAux [] s.data

/-- Model of Python joining a component list with slashes. -/
def joinSlash : List String → String
  | [] => ""
  | [x] => x
  | x :: y :: rest => x ++ "/" ++ joinSlash (y :: rest)

/-- The component loop of CPython's `posixpath.normpath`: skip empty and `.`
components; keep `..` when the path is relative and nothing was kept yet, or
the last kept component is itself `..`; otherwise `..` pops the last kept
component (or vanishes at the root).  `acc` holds kept components reversed. -/
def normComps (rooted : Bool) (acc : List String) : List String → List String
  | [] => acc.reverse
  | comp :: rest =>
    if comp = "" ∨ comp = "." then normComps rooted acc rest
    else if comp ≠ ".." ∨ (rooted = false ∧ acc = []) ∨ acc.head? = some ".." then
      normComps rooted (comp :: acc) rest
    else
      normComps rooted acc.tail rest

/-- CPython `posixpath.normpath`, including the special handling of exactly
two leading slashes. -/
def normpath (p : String) : String :=
  if p = "" then "."
  else
    let rooted := startsWith p "/"
    let doubled := startsWith p "//" && !(startsWith p "///")
    let out :=
      (if rooted then (if doubled then "//" else "/") else "") ++
        joinSlash (normComps rooted [] (splitSlash p))
    if out = "" then "." else out

/-- Model of `os.path.abspath` relative to an explicit process working
directory. -/
def abspath (cwd p : String) : String :=
  if startsWith p "/" then normpath p else normpath (pyJoin cwd p)

/-- Longest common initial segment of two character lists. -/
def lcpChars : List Char → List Char → List Char
  | x :: xs, y :: ys => if x = y then x :: lcpChars xs ys else []
  | _, _ => []

/-- Model of `os.path.commonprefix` on two paths: the character-wise
(string-level, not component-level) longest common prefix. -/
def commonPre (a b : String) : String := String.mk (lcpChars a.data b.data)

/-- Model of `os.path.expanduser` with an explicit home directory; the
`~user` form is not modelled (never used by the code under study). -/
def expanduser (home s : String) : String :=
  if ¬ startsWith s "~" then s
  else if s = "~" then home
  else if startsWith s "~/" then home ++ String.mk (s.data.drop 1)
  else s

/-- Model of Python `s.rstrip` with the newline character: drop trailing
newline characters. -/
def rstripNl (s : String) : String :=
  String.mk ((s.data.reverse.dropWhile (fun c => c = '\n')).reverse)

/-- Model of Python `s.strip()` on ASCII text: drop leading and trailing
whitespace. -/
def pyStrip (s : String) : String :=
  String.mk (((s.data.dropWhile Char.isWhitespace).reverse.dropWhile
    Char.isWhitespace).reverse)

/-- The inner `is_within_directory(directory, target)` of `download_extract`:
absolutise both paths and test whether their `os.path.commonprefix` equals
the absolute directory.  `cwd` is the process working directory consumed by
`os.path.abspath`. -/
def is_within_directory (cwd directory target : String) : Bool :=
  commonPre (abspath cwd directory) (abspath cwd target) == abspath cwd directory

/-- The validation loop of `safe_extract`: scan the members in order and
return the first member whose joined path fails `is_within_directory`
(the member at which the Python loop raises), if any. -/
def checkMembersLoop (cwd path : String) : List String → Option String
  | [] => none
  | m :: rest =>
    if is_within_directory cwd path (pyJoin path m) then checkMembersLoop cwd path rest
    else some m

/-- Model of `safe_extract(tar, path)`: first validate every member,
writing nothing; only if the whole loop passes call
`tar.extractall(path, ...)`, which writes every member.  The result is the
trace of destination paths written together with the raised exception
message, if any. -/
def safe_extract (cwd path : String) (members : List String) :
    List String × Option String :=
  match checkMembersLoop cwd path members with
  | some _ => ([], some "Attempted Path Traversal in Tar File")
  | none => (members.map (fun m => pyJoin path m), none)

/-- Modelled from the spec: path-segment containment ("resolve both paths
fully, compare path-segment sequences, not raw strings").  Used only as the
refinement reference the claims compare the source's string-based check
against; it is not part of the source. -/
def segContains (dir target : String) : Bool :=
  (splitSlash dir).isPrefixOf (splitSlash target)

/-- Model of `bitget(byteval, idx)` from `voc_cmap`: test bit `idx`. -/
def bitget (byteval idx : Nat) : Bool :=
  byteval &&& (1 <<< idx) != 0

/-- One iteration of `voc_cmap`'s inner loop on state `((r, g, b), c)`:
OR bits 0..2 of `c`, shifted to position `7 - j`, into the channels, then
shift `c` right by 3. -/
def cmapStep (s : (Nat × Nat × Nat) × Nat) (j : Nat) : (Nat × Nat × Nat) × Nat :=
  ((s.1.1 ||| ((if bitget s.2 0 then 1 else 0) <<< (7 - j)),
    s.1.2.1 ||| ((if bitget s.2 1 then 1 else 0) <<< (7 - j)),
    s.1.2.2 ||| ((if bitget s.2 2 then 1 else 0) <<< (7 - j))),
   s.2 >>> 3)

/-- The `(r, g, b)` triple `voc_cmap` computes for index `i`: eight
iterations of `cmapStep` starting from `r = g = b = 0`, `c = i`. -/
def cmapChannels (i : Nat) : Nat × Nat × Nat :=
  ((List.range 8).foldl cmapStep ((0, 0, 0), i)).1

/-- Modelled from the spec's wording of the reference bit-interleave
algorithm: "extract bits 0,1,2 of a working copy of i …, OR each extracted
bit, left-shifted by (7-j), into the corresponding channel accumulator; then
right-shift the working copy by 3 bits" — stated with `Nat.testBit`. -/
def refStep (s : (Nat × Nat × Nat) × Nat) (j : Nat) : (Nat × Nat × Nat) × Nat :=
  ((s.1.1 ||| ((if s.2.testBit 0 then 1 else 0) <<< (7 - j)),
    s.1.2.1 ||| ((if s.2.testBit 1 then 1 else 0) <<< (7 - j)),
    s.1.2.2 ||| ((if s.2.testBit 2 then 1 else 0) <<< (7 - j))),
   s.2 >>> 3)

/-- The reference algorithm's entry for index `i`. -/
def refEntry (i : Nat) : Nat × Nat × Nat :=
  ((List.range 8).foldl refStep ((0, 0, 0), i)).1

/-- The integer content of the colormap table for a non-negative size:
entry `i` is `cmapChannels i`, for `i` in `range N`. -/
def voc_cmapNat (N : Nat) : List (Nat × Nat × Nat) :=
  (List.range N).map cmapChannels

/-- Model of `voc_cmap(N, normalized)`.  `np.zeros((N, 3))` raises
`ValueError: negative dimensions are not allowed` when `N < 0`, so the
model is `Except`-valued over an `Int` size.  Channel values are modelled as
exact rationals (every integer written into the `uint8`/`float32` array is
at most 255, hence exactly representable; the single float division by 255
is modelled exactly). -/
def voc_cmap (N : Int) (normalized : Bool) : Except String (List (ℚ × ℚ × ℚ)) :=
  if N < 0 then .error "negative dimensions are not allowed"
  else .ok ((voc_cmapNat N.toNat).map (fun e =>
    if normalized then ((e.1 : ℚ) / 255, (e.2.1 : ℚ) / 255, (e.2.2 : ℚ) / 255)
    else ((e.1 : ℚ), (e.2.1 : ℚ), (e.2.2 : ℚ))))

/-- One row of `DATASET_YEAR_DICT`. -/
structure YearEntry where
  url : String
  filename : String
  md5 : String
  base_dir : String
deriving DecidableEq

/-- The hardcoded per-year descriptor table, as a lookup returning `none`
for a key the Python dict would raise `KeyError` on. -/
def DATASET_YEAR_DICT (year : String) : Option YearEntry :=
  if year = "2012" then
    some ⟨"http://host.robots.ox.ac.uk/pascal/VOC/voc2012/VOCtrainval_11-May-2012.tar",
      "VOCtrainval_11-May-2012.tar", "6cd6e144f989b92b3379bac3b3de84fd",
      "VOCdevkit/VOC2012"⟩
  else if year = "2011" then
    some ⟨"http://host.robots.ox.ac.uk/pascal/VOC/voc2011/VOCtrainval_25-May-2011.tar",
      "VOCtrainval_25-May-2011.tar", "6c3384ef61512963050cb5d687e5bf1e",
      "TrainVal/VOCdevkit/VOC2011"⟩
  else if year = "2010" then
    some ⟨"http://host.robots.ox.ac.uk/pascal/VOC/voc2010/VOCtrainval_03-May-2010.tar",
      "VOCtrainval_03-May-2010.tar", "da459979d0c395079b5c75ee67908abb",
      "VOCdevkit/VOC2010"⟩
  else if year = "2009" then
    some ⟨"http://host.robots.ox.ac.uk/pascal/VOC/voc2009/VOCtrainval_11-May-2009.tar",
      "VOCtrainval_11-May-2009.tar", "59065e4b188729180974ef6572f6a212",
      "VOCdevkit/VOC2009"⟩
  else if year = "2008" then
    some ⟨"http://host.robots.ox.ac.uk/pascal/VOC/voc2008/VOCtrainval_14-Jul-2008.tar",
      "VOCtrainval_11-May-2012.tar", "2629fa636546599198acfcfbfcf1904a",
      "VOCdevkit/VOC2008"⟩
  else if year = "2007" then
    some ⟨"http://host.robots.ox.ac.uk/pascal/VOC/voc2007/VOCtrainval_06-Nov-2007.tar",
      "VOCtrainval_06-Nov-2007.tar", "c52e279531787c972589f7e41ab4ae64",
      "VOCdevkit/VOC2007"⟩
  else none

/-- Read-only view of the filesystem consulted by `__init__`:
`os.path.isdir`, `os.path.exists`, and the stripped-of-terminators line list
that `f.readlines()` yields for a text file. -/
structure FS where
  isdir : String → Bool
  fileExists : String → Bool
  lines : String → List String

/-- Python exceptions raised by `__init__` and `__getitem__`. -/
inductive PyError where
  | keyError : String → PyError
  | runtimeError : String → PyError
  | assertionError : String → PyError
  | valueError : String → PyError
  | indexError : String → PyError
deriving DecidableEq

/-- External side effects of `__init__`: the only one is the
`download_extract(url, root, filename, md5)` call, delegated to the
downloader and to `safe_extract` (modelled separately). -/
inductive Effect where
  | downloadExtract : String → String → String → String → Effect
deriving DecidableEq

/-- The state a successful `__init__` leaves behind, restricted to what the
accessor observes: `self.images` and `self.masks`, plus the locals
`image_dir`, `mask_dir` and `split_f` that determine them (exposed so the
selection of manifest and mask directory can be specified). -/
structure InitResult where
  images : List String
  masks : List String
  imageDir : String
  maskDir : String
  splitF : String
deriving DecidableEq

/-- Message of the `RuntimeError` raised when the base directory is absent. -/
def datasetNotFoundMsg : String :=
  "Dataset not found or corrupted. You can use download=True to download it"

/-- Message of the `ValueError` raised when the manifest file is absent. -/
def wrongImageSetMsg : String :=
  "Wrong image_set entered! Please use image_set=\"train\" or image_set=\"trainval\" or image_set=\"val\""

/-- Message of the `assert` guarding the augmented mask directory. -/
def segAugMissingMsg : String :=
  "SegmentationClassAug not found, please refer to README.md and prepare it manually"

/-- Tail of `__init__` from the `os.path.exists(split_f)` check on: read the
manifest, strip each line, build the image and mask path lists, and check
the `assert len(self.images) == len(self.masks)`. -/
def initFinish (fs : FS) (effects : List Effect)
    (image_dir mask_dir split_f : String) : List Effect × Except PyError InitResult :=
  if fs.fileExists split_f = false then (effects, .error (.valueError wrongImageSetMsg))
  else
    let file_names := (fs.lines split_f).map pyStrip
    let images := file_names.map (fun x => pyJoin image_dir (x ++ ".jpg"))
    let masks := file_names.map (fun x => pyJoin mask_dir (x ++ ".png"))
    if images.length ≠ masks.length then (effects, .error (.assertionError ""))
    else (effects, .ok ⟨images, masks, image_dir, mask_dir, split_f⟩)

/-- Model of `VOCSegmentation.__init__(root, year, image_set, download)` over the
filesystem view `fs`, with `home` the home directory `expanduser` consults.
Statement order follows the source: the `'2012_aug'` rewrite, the
`DATASET_YEAR_DICT` lookups, the optional `download_extract` (recorded as an
effect; its filesystem writes are outside this model, so `fs`-dependent
behaviour is faithful for `download = false`), the `isdir` check, the
branch selecting mask directory and manifest, and `initFinish`. -/
def VOCSegmentation_init (fs : FS) (home root year image_set : String)
    (download : Bool) : List Effect × Except PyError InitResult :=
  let is_aug := year == "2012_aug"
  let year := if is_aug then "2012" else year
  let root := expanduser home root
  match DATASET_YEAR_DICT year with
  | none => ([], .error (.keyError year))
  | some entry =>
    let voc_root := pyJoin root entry.base_dir
    let image_dir := pyJoin voc_root "JPEGImages"
    let effects :=
      if download then [Effect.downloadExtract entry.url root entry.filename entry.md5]
      else []
    if fs.isdir voc_root = false then
      (effects, .error (.runtimeError datasetNotFoundMsg))
    else if is_aug && image_set == "train" then
      let mask_dir := pyJoin voc_root "SegmentationClassAug"
      if fs.fileExists mask_dir = false then
        (effects, .error (.assertionError segAugMissingMsg))
      else
        initFinish fs effects image_dir mask_dir (pyJoin root "train_aug.txt")
    else
      let mask_dir := pyJoin voc_root "SegmentationClass"
      let splits_dir := pyJoin voc_root "ImageSets/Segmentation"
      initFinish fs effects image_dir mask_dir
        (pyJoin splits_dir (rstripNl image_set ++ ".txt"))

/-- The index adjustment of Python list indexing: a negative index counts
from the end of a list of length `n`. -/
def pyAdjust (n : Nat) (i : Int) : Int := if i < 0 then i + n else i

/-- Model of Python list indexing: negative indices count from the end; an
index outside the interval from minus the length to the length raises
`IndexError`. -/
def pyIndex {α : Type} (l : List α) (i : Int) : Except PyError α :=
  if h : 0 ≤ pyAdjust l.length i ∧ pyAdjust l.length i < l.length then
    .ok (l.get ⟨(pyAdjust l.length i).toNat, by omega⟩)
  else .error (.indexError "list index out of range")

/-- Model of `VOCSegmentation.__getitem__(index)` up to the point the two files are
opened: resolve `self.images[index]` and `self.masks[index]` and return the
pair of paths that would be opened (decoding and the optional transform are
external I/O). -/
def voc_getitem (images masks : List String) (index : Int) :
    Except PyError (String × String) :=
  match pyIndex images index with
  | .error e => .error e
  | .ok img =>
    match pyIndex masks index with
    | .error e => .error e
    | .ok msk => .ok (img, msk)

/-! ## Concrete fixtures -/

/-- The `DATASET_YEAR_DICT` row for year `"2012"`. -/
def entry2012 : YearEntry :=
  ⟨"http://host.robots.ox.ac.uk/pascal/VOC/voc2012/VOCtrainval_11-May-2012.tar",
   "VOCtrainval_11-May-2012.tar", "6cd6e144f989b92b3379bac3b3de84fd",
   "VOCdevkit/VOC2012"⟩

/-- A filesystem with the 2012 layout under `/data` and a two-line `val`
manifest (with stray surrounding whitespace in the identifiers). -/
def fsVal : FS where
  isdir := fun p => p == "/data/VOCdevkit/VOC2012"
  fileExists := fun p => p == "/data/VOCdevkit/VOC2012/ImageSets/Segmentation/val.txt"
  lines := fun p =>
    if p == "/data/VOCdevkit/VOC2012/ImageSets/Segmentation/val.txt" then
      [" 2007_000032", "2007_000033 "] else []

/-- A filesystem with the 2012 layout under `/data` and a one-line `train`
manifest. -/
def fsTrain : FS where
  isdir := fun p => p == "/data/VOCdevkit/VOC2012"
  fileExists := fun p => p == "/data/VOCdevkit/VOC2012/ImageSets/Segmentation/train.txt"
  lines := fun p =>
    if p == "/data/VOCdevkit/VOC2012/ImageSets/Segmentation/train.txt" then
      ["2007_000032"] else []

/-- A filesystem where the 2012 base directory exists but nothing else does
(no `SegmentationClassAug`, no manifest anywhere). -/
def fsAugBad : FS where
  isdir := fun p => p == "/data/VOCdevkit/VOC2012"
  fileExists := fun _ => false
  lines := fun _ => []

/-- A filesystem fully prepared for the augmented-train variant:
`SegmentationClassAug` present and a one-line `/data/train_aug.txt`. -/
def fsAugOk : FS where
  isdir := fun p => p == "/data/VOCdevkit/VOC2012"
  fileExists := fun p =>
    p == "/data/VOCdevkit/VOC2012/SegmentationClassAug" || p == "/data/train_aug.txt"
  lines := fun p => if p == "/data/train_aug.txt" then ["2007_000032"] else []

/-- The successful result of constructing over `fsVal` (year 2012, split
`val`). -/
def resVal : InitResult :=
  ⟨["/data/VOCdevkit/VOC2012/JPEGImages/2007_000032.jpg",
    "/data/VOCdevkit/VOC2012/JPEGImages/2007_000033.jpg"],
   ["/data/VOCdevkit/VOC2012/SegmentationClass/2007_000032.png",
    "/data/VOCdevkit/VOC2012/SegmentationClass/2007_000033.png"],
   "/data/VOCdevkit/VOC2012/JPEGImages",
   "/data/VOCdevkit/VOC2012/SegmentationClass",
   "/data/VOCdevkit/VOC2012/ImageSets/Segmentation/val.txt"⟩

/-- The successful result of constructing the augmented-train variant over
`fsAugOk`. -/
def resAug : InitResult :=
  ⟨["/data/VOCdevkit/VOC2012/JPEGImages/2007_000032.jpg"],
   ["/data/VOCdevkit/VOC2012/SegmentationClassAug/2007_000032.png"],
   "/data/VOCdevkit/VOC2012/JPEGImages",
   "/data/VOCdevkit/VOC2012/SegmentationClassAug",
   "/data/train_aug.txt"⟩

/-! ## Sanity checks of the embedding on concrete inputs -/

example : pyJoin "/root" "../root-evil" = "/root/../root-evil" := by rfl
example : normpath "/root/../root-evil" = "/root-evil" := by rfl
example : abspath "/cwd" "/root/../../escape.txt" = "/escape.txt" := by rfl
example : commonPre "/root" "/root-evil" = "/root" := by rfl
example : pyStrip " 2007_000032 " = "2007_000032" := by rfl
example : rstripNl "train\n" = "train" := by rfl
example : is_within_directory "/cwd" "/root" (pyJoin "/root" "../root-evil") = true := by rfl
example : segContains (abspath "/cwd" "/root")
    (abspath "/cwd" (pyJoin "/root" "../root-evil")) = false := by rfl
example : is_within_directory "/cwd" "/root" (pyJoin "/root" "../../escape.txt") = false := by rfl
example : cmapChannels 0 = (0, 0, 0) := by rfl
example : cmapChannels 1 = (128, 0, 0) := by rfl
example : refEntry 2 = (0, 128, 0) := by rfl

/-! ## Helper lemmas -/

theorem lcpChars_eq_self_iff (as : List Char) : ∀ bs : List Char,
    lcpChars as bs = as ↔ as <+: bs := by
  induction as with
  | nil => intro bs; cases bs <;> simp [lcpChars]
  | cons x xs ih =>
    intro bs
    cases bs with
    | nil => simp [lcpChars]
    | cons y ys =>
      by_cases h : x = y
      · subst h
        simp [lcpChars, ih, List.cons_prefix_cons]
      · simp [lcpChars, h, List.cons_prefix_cons]

theorem is_within_directory_iff_string_pre (cwd d t : String) :
    is_within_directory cwd d t = true ↔
      (abspath cwd d).data <+: (abspath cwd t).data := by
  unfold is_within_directory
  rw [beq_iff_eq]
  constructor
  · intro h
    exact (lcpChars_eq_self_iff _ _).1 (congrArg String.data h)
  · intro h
    exact congrArg String.mk ((lcpChars_eq_self_iff _ _).2 h)

theorem checkMembersLoop_eq_none_iff (cwd path : String) (ms : List String) :
    checkMembersLoop cwd path ms = none ↔
      ∀ m ∈ ms, is_within_directory cwd path (pyJoin path m) = true := by
  induction ms with
  | nil => simp [checkMembersLoop]
  | cons m rest ih =>
    by_cases h : is_within_directory cwd path (pyJoin path m) = true
    · simp [checkMembersLoop, h, ih]
    · simp only [checkMembersLoop, if_neg h]
      constructor
      · intro hc; exact Option.noConfusion hc
      · intro hall; exact absurd (hall m (List.mem_cons_self m rest)) h

theorem bitget_eq_testBit (c idx : Nat) : bitget c idx = c.testBit idx := by
  unfold bitget
  rw [Nat.one_shiftLeft, Nat.and_two_pow]
  cases h : c.testBit idx <;> simp [h, Nat.pow_eq_zero]

theorem cmapStep_eq_refStep : cmapStep = refStep := by
  funext s j
  simp [cmapStep, refStep, bitget_eq_testBit]

theorem cmapChannels_eq_refEntry (i : Nat) : cmapChannels i = refEntry i := by
  simp [cmapChannels, refEntry, cmapStep_eq_refStep]

theorem shiftIf_lt (b : Bool) (j : Nat) : ((if b then 1 else 0) <<< (7 - j)) < 256 := by
  cases b
  · show ((0 : Nat) <<< (7 - j)) < 256
    rw [Nat.zero_shiftLeft]
    omega
  · show ((1 : Nat) <<< (7 - j)) < 256
    rw [Nat.one_shiftLeft]
    calc 2 ^ (7 - j) ≤ 2 ^ 7 := Nat.pow_le_pow_right (by omega) (Nat.sub_le _ _)
      _ < 256 := by omega

theorem foldl_cmapStep_bound (l : List Nat) :
    ∀ s : (Nat × Nat × Nat) × Nat, s.1.1 < 256 → s.1.2.1 < 256 → s.1.2.2 < 256 →
      (l.foldl cmapStep s).1.1 < 256 ∧ (l.foldl cmapStep s).1.2.1 < 256 ∧
        (l.foldl cmapStep s).1.2.2 < 256 := by
  have h256 : (256 : Nat) = 2 ^ 8 := by norm_num
  induction l with
  | nil => intro s h1 h2 h3; exact ⟨h1, h2, h3⟩
  | cons j rest ih =>
    intro s h1 h2 h3
    simp only [List.foldl_cons]
    refine ih (cmapStep s j) ?_ ?_ ?_ <;>
      · show _ ||| _ < 256
        rw [h256]
        exact Nat.or_lt_two_pow (h256 ▸ ‹_ < 256›) (h256 ▸ shiftIf_lt _ _)

theorem cmapChannels_lt (i : Nat) :
    (cmapChannels i).1 < 256 ∧ (cmapChannels i).2.1 < 256 ∧ (cmapChannels i).2.2 < 256 := by
  simpa [cmapChannels] using
    foldl_cmapStep_bound (List.range 8) ((0, 0, 0), i) (show (0 : Nat) < 256 by omega)
      (show (0 : Nat) < 256 by omega) (show (0 : Nat) < 256 by omega)

theorem pyAdjust_eq (n : Nat) (i : Int) :
    pyAdjust n i = if i < 0 then i + n else i := rfl

theorem pyIndex_error_iff {α : Type} (l : List α) (i : Int) :
    pyIndex l i = .error (.indexError "list index out of range") ↔
      i < -(l.length : Int) ∨ (l.length : Int) ≤ i := by
  by_cases h : 0 ≤ pyAdjust l.length i ∧ pyAdjust l.length i < (l.length : Int)
  · unfold pyIndex
    rw [dif_pos h]
    have h' := h
    rw [pyAdjust_eq] at h'
    constructor
    · intro hc; exact Except.noConfusion hc
    · intro hc
      exfalso
      rcases lt_or_ge i 0 with hneg | hpos
      · rw [if_pos hneg] at h'; omega
      · rw [if_neg (not_lt.2 hpos)] at h'; omega
  · unfold pyIndex
    rw [dif_neg h]
    have h' := h
    rw [pyAdjust_eq] at h'
    constructor
    · intro _
      rcases lt_or_ge i 0 with hneg | hpos
      · rw [if_pos hneg] at h'; omega
      · rw [if_neg (not_lt.2 hpos)] at h'; omega
    · intro _; rfl

theorem pyIndex_isOk {α : Type} (l : List α) (i : Int)
    (h0 : -(l.length : Int) ≤ i) (h1 : i < (l.length : Int)) :
    ∃ a, pyIndex l i = .ok a := by
  have h : 0 ≤ pyAdjust l.length i ∧ pyAdjust l.length i < (l.length : Int) := by
    rw [pyAdjust_eq]
    rcases lt_or_ge i 0 with hneg | hpos
    · rw [if_pos hneg]; omega
    · rw [if_neg (not_lt.2 hpos)]; omega
  unfold pyIndex
  rw [dif_pos h]
  exact ⟨_, rfl⟩

/-! ## Claim theorems -/

/-- Claim C1, counterexample: the archive member `"../root-evil"` extracted
under root `/root` resolves to `/root-evil`, a sibling directory whose name
merely extends the root's name, so path-segment containment rejects it;
yet `safe_extract` accepts the archive (no error, the member is written). -/
theorem safe_extract_accepts_sibling_directory :
    (safe_extract "/cwd" "/root" ["../root-evil"]).2 = none ∧
    (safe_extract "/cwd" "/root" ["../root-evil"]).1 = ["/root/../root-evil"] ∧
    segContains (abspath "/cwd" "/root")
      (abspath "/cwd" (pyJoin "/root" "../root-evil")) = false := by
  refine ⟨rfl, rfl, rfl⟩

/-- Claim C1 (amended): `safe_extract` accepts a member exactly when the
absolute destination root is a *string* prefix of the member's resolved
absolute path (`os.path.commonprefix` compares characters, not path
segments); hence a sibling directory such as `/root-evil` against root
`/root` is wrongly accepted. -/
theorem safe_extract_member_check_is_string_prefix_compare (cwd path m : String) :
    is_within_directory cwd path (pyJoin path m) = true ↔
      (abspath cwd path).data <+: (abspath cwd (pyJoin path m)).data :=
  is_within_directory_iff_string_pre cwd path (pyJoin path m)

/-- Claim C2: `safe_extract` validates every member in a pre-pass before
writing anything.  If any member fails the containment check the result is
the path-traversal error with an empty write trace (no file or directory
written); if every member passes, there is no error and the write trace is
exactly all members' destinations.  There is no partially extracted state. -/
theorem safe_extract_prepass_all_or_nothing (cwd path : String) (members : List String) :
    ((∃ m ∈ members, is_within_directory cwd path (pyJoin path m) = false) →
      safe_extract cwd path members = ([], some "Attempted Path Traversal in Tar File")) ∧
    ((∀ m ∈ members, is_within_directory cwd path (pyJoin path m) = true) →
      safe_extract cwd path members = (members.map (fun m => pyJoin path m), none)) := by
  constructor
  · rintro ⟨m, hm, hbad⟩
    have hne : checkMembersLoop cwd path members ≠ none := fun hnone => by
      have hall := (checkMembersLoop_eq_none_iff cwd path members).1 hnone
      rw [hall m hm] at hbad
      exact Bool.noConfusion hbad
    unfold safe_extract
    cases hcl : checkMembersLoop cwd path members with
    | none => exact absurd hcl hne
    | some x => rfl
  · intro hall
    unfold safe_extract
    rw [(checkMembersLoop_eq_none_iff cwd path members).2 hall]

/-- Claim C2, witness: the crafted archive containing `../../escape.txt`
is rejected with the path-traversal error and nothing is written. -/
theorem safe_extract_prepass_all_or_nothing_witness :
    safe_extract "/cwd" "/root" ["../../escape.txt"] =
      ([], some "Attempted Path Traversal in Tar File") :=
  (safe_extract_prepass_all_or_nothing "/cwd" "/root" ["../../escape.txt"]).1
    ⟨"../../escape.txt", List.mem_singleton.2 rfl, by rfl⟩

/-- Claim C3: for every size `N` and index `i < N`, the colormap entry at
`i` equals the triple produced by the reference bit-interleave algorithm
(`refEntry`, stated from the spec's wording with `Nat.testBit`); and the
reference entries 0 and 1 are `(0,0,0)` and `(128,0,0)`. -/
theorem voc_cmap_entry_matches_reference (N i : Nat) (h : i < (voc_cmapNat N).length) :
    (voc_cmapNat N)[i] = refEntry i ∧
      refEntry 0 = (0, 0, 0) ∧ refEntry 1 = (128, 0, 0) := by
  refine ⟨?_, by decide, by decide⟩
  simp [voc_cmapNat, cmapChannels_eq_refEntry]

/-- Claim C3, witness: instantiation at `N = 256`, `i = 5`. -/
theorem voc_cmap_entry_matches_reference_witness :
    refEntry 0 = (0, 0, 0) ∧ refEntry 1 = (128, 0, 0) :=
  (voc_cmap_entry_matches_reference 256 5 (by simp [voc_cmapNat])).2

/-- Claim C5, counterexample: the generator is not total — a negative size
reaches `np.zeros((N, 3))`, which raises `ValueError` instead of returning
an empty table. -/
theorem voc_cmap_negative_size_raises :
    voc_cmap (-1) false = .error "negative dimensions are not allowed" ∧
    voc_cmap (-1) true = .error "negative dimensions are not allowed" :=
  ⟨rfl, rfl⟩

/-- Claim C5 (amended): every size `N ≥ 0` is valid and yields a table,
which at `N = 0` is empty; a size `N < 0` fails with
`ValueError: negative dimensions are not allowed` from the array
allocation. -/
theorem voc_cmap_total_on_nonneg (N : Int) (b : Bool) :
    (0 ≤ N → ∃ l, voc_cmap N b = .ok l ∧ (N = 0 → l = [])) ∧
    (N < 0 → voc_cmap N b = .error "negative dimensions are not allowed") := by
  constructor
  · intro h
    have hn : ¬ N < 0 := not_lt.2 h
    refine ⟨(voc_cmapNat N.toNat).map (fun e =>
      if b then ((e.1 : ℚ) / 255, (e.2.1 : ℚ) / 255, (e.2.2 : ℚ) / 255)
      else ((e.1 : ℚ), (e.2.1 : ℚ), (e.2.2 : ℚ))), ?_, ?_⟩
    · simp [voc_cmap, hn]
    · intro h0
      subst h0
      rfl
  · intro h
    simp [voc_cmap, h]

/-- Claim C5 (amended), witness: size 0 yields the empty table. -/
theorem voc_cmap_total_on_nonneg_witness :
    ∃ l, voc_cmap 0 false = .ok l ∧ ((0 : Int) = 0 → l = []) :=
  (voc_cmap_total_on_nonneg 0 false).1 (by omega)

/-- Claim C8: for every size and in-range entry index, the normalized
colormap entry is the non-normalized entry divided by 255 elementwise, and
the non-normalized entry is a triple of integers in `[0, 255]`. -/
theorem voc_cmap_normalized_is_div255 (N : Int) (i : Nat)
    (h0 : 0 ≤ N) (h : i < N.toNat) :
    ∃ (r g b : Nat) (lT lF : List (ℚ × ℚ × ℚ)),
      voc_cmap N true = .ok lT ∧ voc_cmap N false = .ok lF ∧
      lF.get? i = some ((r : ℚ), (g : ℚ), (b : ℚ)) ∧
      lT.get? i = some ((r : ℚ) / 255, (g : ℚ) / 255, (b : ℚ) / 255) ∧
      r ≤ 255 ∧ g ≤ 255 ∧ b ≤ 255 := by
  obtain ⟨hr, hg, hb⟩ := cmapChannels_lt i
  have hn : ¬ N < 0 := not_lt.2 h0
  refine ⟨(cmapChannels i).1, (cmapChannels i).2.1, (cmapChannels i).2.2,
    (voc_cmapNat N.toNat).map (fun e =>
      ((e.1 : ℚ) / 255, (e.2.1 : ℚ) / 255, (e.2.2 : ℚ) / 255)),
    (voc_cmapNat N.toNat).map (fun e =>
      ((e.1 : ℚ), (e.2.1 : ℚ), (e.2.2 : ℚ))), ?_, ?_, ?_, ?_,
    by omega, by omega, by omega⟩
  · simp [voc_cmap, hn]
  · simp [voc_cmap, hn]
  · simp [voc_cmapNat, List.getElem?_map, List.getElem?_range h]
  · simp [voc_cmapNat, List.getElem?_map, List.getElem?_range h]

/-- Claim C8, witness: instantiation at size 2, entry index 1. -/
theorem voc_cmap_normalized_is_div255_witness :
    ∃ (r g b : Nat) (lT lF : List (ℚ × ℚ × ℚ)),
      voc_cmap 2 true = .ok lT ∧ voc_cmap 2 false = .ok lF ∧
      lF.get? 1 = some ((r : ℚ), (g : ℚ), (b : ℚ)) ∧
      lT.get? 1 = some ((r : ℚ) / 255, (g : ℚ) / 255, (b : ℚ) / 255) ∧
      r ≤ 255 ∧ g ≤ 255 ∧ b ≤ 255 :=
  voc_cmap_normalized_is_div255 2 1 (by omega) (by omega)

/-- Claim C4, counterexample: with a single sample, index `-1` lies outside
`[0, length())`, yet `__getitem__` succeeds instead of raising — Python list
indexing accepts negative indices down to `-length()`. -/
theorem voc_getitem_negative_index_succeeds :
    voc_getitem ["/d/JPEGImages/a.jpg"] ["/d/SegmentationClass/a.png"] (-1) =
      .ok ("/d/JPEGImages/a.jpg", "/d/SegmentationClass/a.png") ∧ (-1 : Int) < 0 :=
  ⟨rfl, by omega⟩

/-- Claim C4 (amended): `get(i)` raises `IndexOutOfRange` exactly for the
integer indices outside `[-length(), length())` — so `get(N)` and
`get(-1-N)` raise — and for any index in `[-length(), length())`, in
particular all of `[0, length())`, it succeeds. -/
theorem voc_getitem_error_outside_pythonic_range (images masks : List String) (i : Int)
    (hlen : masks.length = images.length) :
    (voc_getitem images masks i = .error (.indexError "list index out of range") ↔
      i < -(images.length : Int) ∨ (images.length : Int) ≤ i) ∧
    (-(images.length : Int) ≤ i → i < (images.length : Int) →
      ∃ p, voc_getitem images masks i = .ok p) := by
  constructor
  · by_cases h : i < -(images.length : Int) ∨ (images.length : Int) ≤ i
    · have he := (pyIndex_error_iff images i).2 h
      unfold voc_getitem
      rw [he]
      exact iff_of_true rfl h
    · push_neg at h
      obtain ⟨a, ha⟩ := pyIndex_isOk images i (by omega) (by omega)
      obtain ⟨b, hb⟩ := pyIndex_isOk masks i (by omega) (by omega)
      unfold voc_getitem
      rw [ha, hb]
      exact ⟨fun hc => Except.noConfusion hc, fun hc => ((by omega : False)).elim⟩
  · intro h1 h2
    obtain ⟨a, ha⟩ := pyIndex_isOk images i h1 h2
    obtain ⟨b, hb⟩ := pyIndex_isOk masks i (by omega) (by omega)
    refine ⟨(a, b), ?_⟩
    unfold voc_getitem
    rw [ha, hb]

/-- Claim C4 (amended), witness: one sample, probe index 1 (out of range)
and the in-range guarantee. -/
theorem voc_getitem_error_outside_pythonic_range_witness :
    ((voc_getitem ["/d/a.jpg"] ["/d/a.png"] 1 =
        .error (.indexError "list index out of range") ↔
      (1 : Int) < -((List.length ["/d/a.jpg"] : Nat) : Int) ∨
        (((List.length ["/d/a.jpg"] : Nat) : Int) ≤ 1)) ∧
     (-((List.length ["/d/a.jpg"] : Nat) : Int) ≤ 1 →
      (1 : Int) < ((List.length ["/d/a.jpg"] : Nat) : Int) →
      ∃ p, voc_getitem ["/d/a.jpg"] ["/d/a.png"] 1 = .ok p)) :=
  voc_getitem_error_outside_pythonic_range ["/d/a.jpg"] ["/d/a.png"] 1 rfl

/-- Claim C10: a version identifier that is neither a supported year nor
the augmented variant `"2012_aug"` makes construction fail with `KeyError` from the descriptor
table, for every filesystem and download flag, with no download (or any
other effect) attempted. -/
theorem invalid_year_raises_keyerror (fs : FS) (home root year image_set : String)
    (download : Bool)
    (h : DATASET_YEAR_DICT (if year == "2012_aug" then "2012" else year) = none) :
    VOCSegmentation_init fs home root year image_set download =
      ([], .error (.keyError (if year == "2012_aug" then "2012" else year))) := by
  simp only [VOCSegmentation_init, h]

/-- Claim C10, witness: year `"1999"` with a populated filesystem and
`download = true` still yields only the `KeyError`, no effects. -/
theorem invalid_year_raises_keyerror_witness :
    VOCSegmentation_init fsVal "/h" "/data" "1999" "train" true =
      ([], .error (.keyError "1999")) :=
  invalid_year_raises_keyerror fsVal "/h" "/data" "1999" "train" true rfl

/-! ## Characterizations of `VOCSegmentation_init` -/

theorem VOCSegmentation_init_eq (fs : FS) (home root year image_set : String)
    (entry : YearEntry)
    (he : DATASET_YEAR_DICT (if year == "2012_aug" then "2012" else year) = some entry) :
    VOCSegmentation_init fs home root year image_set false =
      (if fs.isdir (pyJoin (expanduser home root) entry.base_dir) = false then
        ([], .error (.runtimeError datasetNotFoundMsg))
      else if (year == "2012_aug") && (image_set == "train") then
        (if fs.fileExists (pyJoin (pyJoin (expanduser home root) entry.base_dir)
            "SegmentationClassAug") = false then
          ([], .error (.assertionError segAugMissingMsg))
        else
          initFinish fs []
            (pyJoin (pyJoin (expanduser home root) entry.base_dir) "JPEGImages")
            (pyJoin (pyJoin (expanduser home root) entry.base_dir) "SegmentationClassAug")
            (pyJoin (expanduser home root) "train_aug.txt"))
      else
        initFinish fs []
          (pyJoin (pyJoin (expanduser home root) entry.base_dir) "JPEGImages")
          (pyJoin (pyJoin (expanduser home root) entry.base_dir) "SegmentationClass")
          (pyJoin (pyJoin (pyJoin (expanduser home root) entry.base_dir)
            "ImageSets/Segmentation") (rstripNl image_set ++ ".txt"))) := by
  simp only [VOCSegmentation_init, he, Bool.false_eq_true, if_false]

theorem initFinish_snd (fs : FS) (effects : List Effect)
    (image_dir mask_dir split_f : String) :
    initFinish fs effects image_dir mask_dir split_f =
      (effects,
        if fs.fileExists split_f = false then .error (.valueError wrongImageSetMsg)
        else .ok ⟨((fs.lines split_f).map pyStrip).map
                    (fun x => pyJoin image_dir (x ++ ".jpg")),
                  ((fs.lines split_f).map pyStrip).map
                    (fun x => pyJoin mask_dir (x ++ ".png")),
                  image_dir, mask_dir, split_f⟩) := by
  unfold initFinish
  split
  · rfl
  · dsimp only
    rw [if_neg (by simp)]

theorem initFinish_ok (fs : FS) (effects eff : List Effect)
    (image_dir mask_dir split_f : String) (res : InitResult)
    (h : initFinish fs effects image_dir mask_dir split_f = (eff, .ok res)) :
    res.images.length = (fs.lines res.splitF).length ∧
    res.masks.length = (fs.lines res.splitF).length ∧
    res.images = (fs.lines res.splitF).map
      (fun x => pyJoin res.imageDir (pyStrip x ++ ".jpg")) ∧
    res.masks = (fs.lines res.splitF).map
      (fun x => pyJoin res.maskDir (pyStrip x ++ ".png")) := by
  rw [initFinish_snd] at h
  split at h
  · simp at h
  · simp only [Prod.mk.injEq, Except.ok.injEq] at h
    obtain ⟨-, hres⟩ := h
    subst hres
    refine ⟨by simp, by simp, ?_, ?_⟩ <;> simp [List.map_map, Function.comp]

theorem initFinish_fields (fs : FS) (effects eff : List Effect)
    (image_dir mask_dir split_f : String) (res : InitResult)
    (h : initFinish fs effects image_dir mask_dir split_f = (eff, .ok res)) :
    res.imageDir = image_dir ∧ res.maskDir = mask_dir ∧ res.splitF = split_f := by
  rw [initFinish_snd] at h
  split at h
  · simp at h
  · simp only [Prod.mk.injEq, Except.ok.injEq] at h
    obtain ⟨-, hres⟩ := h
    subst hres
    exact ⟨rfl, rfl, rfl⟩

/-- Claim C7: a successful construction builds the image and mask path
lists from the manifest: both have exactly one entry per manifest line, the
`k`-th image path is `<image_dir>/<id_k>.jpg` and the `k`-th mask path is
`<mask_dir>/<id_k>.png` with `id_k` the `k`-th manifest line stripped of
surrounding whitespace, in manifest order and without removing
duplicates (the lists are literally the elementwise image of the line
list). -/
theorem init_builds_samples_from_manifest (fs : FS) (home root year image_set : String)
    (eff : List Effect) (res : InitResult)
    (h : VOCSegmentation_init fs home root year image_set false = (eff, .ok res)) :
    res.images.length = (fs.lines res.splitF).length ∧
    res.masks.length = (fs.lines res.splitF).length ∧
    res.images = (fs.lines res.splitF).map
      (fun x => pyJoin res.imageDir (pyStrip x ++ ".jpg")) ∧
    res.masks = (fs.lines res.splitF).map
      (fun x => pyJoin res.maskDir (pyStrip x ++ ".png")) := by
  cases hd : DATASET_YEAR_DICT (if year == "2012_aug" then "2012" else year) with
  | none =>
    simp only [VOCSegmentation_init, hd] at h
    simp at h
  | some entry =>
    rw [VOCSegmentation_init_eq fs home root year image_set entry hd] at h
    split at h
    · simp at h
    · split at h
      · split at h
        · simp at h
        · exact initFinish_ok _ _ _ _ _ _ _ h
      · exact initFinish_ok _ _ _ _ _ _ _ h

/-- Claim C7, witness: the concrete two-line `val` manifest over `fsVal`. -/
theorem init_builds_samples_from_manifest_witness :
    resVal.images.length = (fsVal.lines resVal.splitF).length ∧
    resVal.masks.length = (fsVal.lines resVal.splitF).length ∧
    resVal.images = (fsVal.lines resVal.splitF).map
      (fun x => pyJoin resVal.imageDir (pyStrip x ++ ".jpg")) ∧
    resVal.masks = (fsVal.lines resVal.splitF).map
      (fun x => pyJoin resVal.maskDir (pyStrip x ++ ".png")) :=
  init_builds_samples_from_manifest fsVal "/h" "/data" "2012" "val" [] resVal rfl

/-- Claim C9, counterexample: with split name `"train\n"` (a "(version,
split) combination" other than the augmented-train one), the manifest the
code resolves is `.../train.txt` — the split name is first stripped of
trailing newlines — not `.../train\n.txt` as the claim's
`<base_dir>/ImageSets/Segmentation/<split>.txt` formula states. -/
theorem init_split_newline_rstripped :
    (∃ res : InitResult,
      VOCSegmentation_init fsTrain "/h" "/data" "2012" "train\n" false = ([], .ok res) ∧
      res.splitF = "/data/VOCdevkit/VOC2012/ImageSets/Segmentation/train.txt") ∧
    "/data/VOCdevkit/VOC2012/ImageSets/Segmentation/train.txt" ≠
      pyJoin (pyJoin (pyJoin (expanduser "/h" "/data") "VOCdevkit/VOC2012")
        "ImageSets/Segmentation") ("train\n" ++ ".txt") := by
  refine ⟨⟨⟨["/data/VOCdevkit/VOC2012/JPEGImages/2007_000032.jpg"],
            ["/data/VOCdevkit/VOC2012/SegmentationClass/2007_000032.png"],
            "/data/VOCdevkit/VOC2012/JPEGImages",
            "/data/VOCdevkit/VOC2012/SegmentationClass",
            "/data/VOCdevkit/VOC2012/ImageSets/Segmentation/train.txt"⟩, rfl, rfl⟩, ?_⟩
  decide

/-- Claim C9 (amended): on any successful construction, the augmented-train
variant (version `"2012_aug"`, split `"train"`) uses the fixed manifest
`train_aug.txt` at the top level of (the expanded) root and mask directory
`SegmentationClassAug` under the base directory; every other combination
uses the manifest `<base_dir>/ImageSets/Segmentation/<s>.txt` — where `<s>`
is the split name stripped of trailing newline characters, identical for
ordinary split names — and mask directory `<base_dir>/SegmentationClass`. -/
theorem init_manifest_maskdir_selection (fs : FS) (home root year image_set : String)
    (entry : YearEntry) (eff : List Effect) (res : InitResult)
    (he : DATASET_YEAR_DICT (if year == "2012_aug" then "2012" else year) = some entry)
    (h : VOCSegmentation_init fs home root year image_set false = (eff, .ok res)) :
    (year = "2012_aug" ∧ image_set = "train" →
      res.splitF = pyJoin (expanduser home root) "train_aug.txt" ∧
      res.maskDir = pyJoin (pyJoin (expanduser home root) entry.base_dir)
        "SegmentationClassAug") ∧
    (¬ (year = "2012_aug" ∧ image_set = "train") →
      res.splitF = pyJoin (pyJoin (pyJoin (expanduser home root) entry.base_dir)
        "ImageSets/Segmentation") (rstripNl image_set ++ ".txt") ∧
      res.maskDir = pyJoin (pyJoin (expanduser home root) entry.base_dir)
        "SegmentationClass") := by
  rw [VOCSegmentation_init_eq fs home root year image_set entry he] at h
  split at h
  · simp at h
  · split at h
    · rename_i haug
      split at h
      · simp at h
      · obtain ⟨-, hmd, hsf⟩ := initFinish_fields _ _ _ _ _ _ _ h
        have hy : year = "2012_aug" ∧ image_set = "train" := by
          simpa only [Bool.and_eq_true, beq_iff_eq] using haug
        exact ⟨fun _ => ⟨hsf, hmd⟩, fun hc => absurd hy hc⟩
    · rename_i haug
      obtain ⟨-, hmd, hsf⟩ := initFinish_fields _ _ _ _ _ _ _ h
      have hny : ¬ (year = "2012_aug" ∧ image_set = "train") := by
        intro hy
        exact haug (by simp [hy.1, hy.2])
      exact ⟨fun hc => absurd hc hny, fun _ => ⟨hsf, hmd⟩⟩

/-- Claim C9 (amended), witness: the augmented-train variant over
`fsAugOk`. -/
theorem init_manifest_maskdir_selection_witness :
    resAug.splitF = pyJoin (expanduser "/h" "/data") "train_aug.txt" ∧
    resAug.maskDir = pyJoin (pyJoin (expanduser "/h" "/data") entry2012.base_dir)
      "SegmentationClassAug" :=
  (init_manifest_maskdir_selection fsAugOk "/h" "/data" "2012_aug" "train" entry2012
    [] resAug rfl rfl).1 ⟨rfl, rfl⟩

/-- Claim C6, counterexample: for the augmented-train variant with the base
directory present but `SegmentationClassAug` missing, the resolved manifest
(`/data/train_aug.txt`) does not exist, yet construction raises the
`SegmentationClassAug` `AssertionError`, not the `InvalidSplit`
`ValueError` — so "raises InvalidSplit exactly when the resolved manifest
file does not exist" fails. -/
theorem init_aug_assert_shadows_invalid_split :
    (VOCSegmentation_init fsAugBad "/h" "/data" "2012_aug" "train" false).2 =
      .error (.assertionError segAugMissingMsg) ∧
    fsAugBad.fileExists (pyJoin (expanduser "/h" "/data") "train_aug.txt") = false :=
  ⟨rfl, rfl⟩

/-- Claim C6 (amended): construction (with `download = false` and a valid
version) raises the dataset-not-found `RuntimeError` exactly when the
version-specific base directory under root is absent; when the base
directory is present — and, in the augmented-train variant, provided the
`SegmentationClassAug` assertion passes — it raises the `ValueError` whose
message guides the caller to the valid split names exactly when the
resolved manifest file does not exist. -/
theorem init_error_conditions (fs : FS) (home root year image_set : String)
    (entry : YearEntry)
    (he : DATASET_YEAR_DICT (if year == "2012_aug" then "2012" else year) = some entry) :
    ((VOCSegmentation_init fs home root year image_set false).2 =
        .error (.runtimeError datasetNotFoundMsg) ↔
      fs.isdir (pyJoin (expanduser home root) entry.base_dir) = false) ∧
    (fs.isdir (pyJoin (expanduser home root) entry.base_dir) = true →
      (((year == "2012_aug") && (image_set == "train")) = true →
        fs.fileExists (pyJoin (pyJoin (expanduser home root) entry.base_dir)
          "SegmentationClassAug") = true) →
      ((VOCSegmentation_init fs home root year image_set false).2 =
          .error (.valueError wrongImageSetMsg) ↔
        fs.fileExists (if ((year == "2012_aug") && (image_set == "train")) = true
          then pyJoin (expanduser home root) "train_aug.txt"
          else pyJoin (pyJoin (pyJoin (expanduser home root) entry.base_dir)
            "ImageSets/Segmentation") (rstripNl image_set ++ ".txt")) = false)) := by
  rw [VOCSegmentation_init_eq fs home root year image_set entry he]
  by_cases hdir : fs.isdir (pyJoin (expanduser home root) entry.base_dir) = false
  · rw [if_pos hdir]
    refine ⟨iff_of_true rfl hdir, fun hdt => ?_⟩
    rw [hdt] at hdir
    exact Bool.noConfusion hdir
  · rw [if_neg hdir]
    constructor
    · refine iff_of_false ?_ hdir
      by_cases haug : ((year == "2012_aug") && (image_set == "train")) = true
      · rw [if_pos haug]
        by_cases hmask : fs.fileExists (pyJoin (pyJoin (expanduser home root)
            entry.base_dir) "SegmentationClassAug") = false
        · rw [if_pos hmask]
          intro hc
          simp at hc
        · rw [if_neg hmask, initFinish_snd]
          dsimp only
          split
          · intro hc; simp at hc
          · intro hc; simp at hc
      · rw [if_neg haug, initFinish_snd]
        dsimp only
        split
        · intro hc; simp at hc
        · intro hc; simp at hc
    · intro _ hassert
      by_cases haug : ((year == "2012_aug") && (image_set == "train")) = true
      · rw [if_pos haug, if_pos haug]
        have hmaskF : ¬ fs.fileExists (pyJoin (pyJoin (expanduser home root)
            entry.base_dir) "SegmentationClassAug") = false := by
          rw [hassert haug]
          exact fun hc => Bool.noConfusion hc
        rw [if_neg hmaskF, initFinish_snd]
        dsimp only
        by_cases hsp : fs.fileExists (pyJoin (expanduser home root) "train_aug.txt") = false
        · rw [if_pos hsp]
          exact iff_of_true rfl hsp
        · rw [if_neg hsp]
          exact iff_of_false (fun hc => by simp at hc) hsp
      · rw [if_neg haug, if_neg haug, initFinish_snd]
        dsimp only
        by_cases hsp : fs.fileExists (pyJoin (pyJoin (pyJoin (expanduser home root)
            entry.base_dir) "ImageSets/Segmentation")
            (rstripNl image_set ++ ".txt")) = false
        · rw [if_pos hsp]
          exact iff_of_true rfl hsp
        · rw [if_neg hsp]
          exact iff_of_false (fun hc => by simp at hc) hsp

/-- Claim C6 (amended), witness: year 2012, split `val` over `fsVal` (base
directory present, manifest present). -/
theorem init_error_conditions_witness :
    ((VOCSegmentation_init fsVal "/h" "/data" "2012" "val" false).2 =
        .error (.runtimeError datasetNotFoundMsg) ↔
      fsVal.isdir (pyJoin (expanduser "/h" "/data") entry2012.base_dir) = false) :=
  (init_error_conditions fsVal "/h" "/data" "2012" "val" entry2012 rfl).1

end VOC
